import Mathlib

/-!
Shallow embedding of `src/main.py` of sh-unnecessaryprivilegeremover.

The program scans a directory tree for files whose mode carries the setuid
(0o4000) or setgid (0o2000) bit, samples the live process table for a
configured duration to collect the set of executable paths observed running,
and then clears the privilege bits (via `chmod a-s`) on every inventoried
file whose path was not observed, unless a dry-run flag is set.

Modelling conventions:
* The filesystem tree seen by `os.walk` is an inductive `Entry` tree.  A
  directory carries a `readable` flag: `os.walk` is invoked with the default
  `onerror=None`, so a directory whose `scandir` fails is skipped silently;
  the flag models whether `scandir` succeeds.  A file carries `Option Nat`,
  its `os.stat` result: `none` models `os.stat` raising `OSError`.
* Log output is reified as a list of `LogEntry` values (level plus message),
  mirroring the `logging.info` / `logging.warning` / `logging.error` calls.
* The mutable filesystem acted on by `chmod` is an association list from
  path to `FileState` (mode bits plus a flag telling whether a mode change
  is permitted, modelling EPERM failures).
* Wall-clock time in the monitor loop is measured in integer milliseconds;
  the `time.sleep(0.1)` poll interval is 100 ms.
-/

/-- A log record: level and message, mirroring the `logging` calls. -/
inductive LogEntry where
  | info (msg : String)
  | warning (msg : String)
  | error (msg : String)
deriving DecidableEq, Repr

/-- True exactly on `LogEntry.warning`, the level used by `logging.warning`. -/
def LogEntry.isWarning : LogEntry → Bool
  | .warning _ => true
  | _ => false

/-- A node of the directory tree walked by `os.walk`.  A file carries its
`os.stat` outcome (`none` models an `OSError` from `os.stat`); a directory
carries its own mode bits, whether `scandir` succeeds on it, and its
children. -/
inductive Entry where
  | file (name : String) (stat : Option Nat)
  | dir (name : String) (mode : Nat) (readable : Bool) (children : List Entry)

/-- `os.path.join root name` for the shapes occurring in a walk: a separator
is inserted unless `root` already ends with one (its last character is the
separator). -/
def joinPath (root name : String) : String :=
  if root.data.getLast? = some '/' then root ++ name else root ++ "/" ++ name

/-- The non-directory entries of a listing, with their stat outcomes: the
`files` component of one `os.walk` triple. -/
def fileEntries : List Entry → List (String × Option Nat)
  | [] => []
  | .file n st :: es => (n, st) :: fileEntries es
  | .dir _ _ _ _ :: es => fileEntries es

/-- One `(dirpath, filenames)` frame yielded by `os.walk` (the `dirnames`
component is bound to `_` by the source and omitted).  File entries carry
their stat outcome because the tree is a static snapshot during the scan. -/
structure Frame where
  root : String
  files : List (String × Option Nat)
deriving DecidableEq, Repr

/-- Frames produced by the top-down `os.walk` recursion over a listing:
each readable subdirectory yields its own frame followed by the frames of
its subtree; an unreadable directory (its `scandir` raises and
`onerror=None` swallows the error) yields nothing. -/
def walkList (path : String) : List Entry → List Frame
  | [] => []
  | .file _ _ :: es => walkList path es
  | .dir n _ r cs :: es =>
      (if r then { root := joinPath path n, files := fileEntries cs } :: walkList (joinPath path n) cs
       else [])
      ++ walkList path es

/-- `os.walk rootDir` over a root directory with the given readability and
listing: the frame of the root itself (when readable) followed by the frames
of its subtree. -/
def osWalk (rootDir : String) (readable : Bool) (children : List Entry) : List Frame :=
  if readable then { root := rootDir, files := fileEntries children } :: walkList rootDir children
  else []

/-- The privilege test of `main.py:86`: `stat_info.st_mode & (0o4000 | 0o2000)`
is nonzero. -/
def isPrivileged (mode : Nat) : Bool := mode &&& 0o6000 != 0

/-- The inner loop of `find_setuid_setgid_files` over the files of one walk
frame: each file is stat-ed; an `OSError` logs a warning and skips the entry;
a privileged mode appends `(filepath, st_mode)` to the inventory. -/
def scanFiles (root : String) : List (String × Option Nat) → List (String × Nat) × List LogEntry
  | [] => ([], [])
  | (n, st) :: rest =>
      let fp := joinPath root n
      let r := scanFiles root rest
      match st with
      | some m => if isPrivileged m then ((fp, m) :: r.1, r.2) else r
      | none => (r.1, .warning ("Could not stat " ++ fp) :: r.2)

/-- The outer loop of `find_setuid_setgid_files` over the walk frames. -/
def scanFrames : List Frame → List (String × Nat) × List LogEntry
  | [] => ([], [])
  | f :: fs =>
      let r1 := scanFiles f.root f.files
      let r2 := scanFrames fs
      (r1.1 ++ r2.1, r1.2 ++ r2.2)

/-- `find_setuid_setgid_files(root_dir)` (main.py:71-93): walk the tree from
`rootDir` and return the inventory of `(path, mode)` pairs whose mode has the
setuid or setgid bit, together with the log it emits. -/
def find_setuid_setgid_files (rootDir : String) (readable : Bool) (children : List Entry) :
    List (String × Nat) × List LogEntry :=
  scanFrames (osWalk rootDir readable children)

/-- The default value of the `root_dir` parameter of
`find_setuid_setgid_files` (main.py:71). -/
def find_setuid_setgid_files_default_root : String := "/"

/-- All `(path, stat)` pairs of files reachable through readable directories,
read off the walk frames: the scanner visits exactly these files. -/
def reachableFiles (rootDir : String) (readable : Bool) (children : List Entry) :
    List (String × Option Nat) :=
  (osWalk rootDir readable children).flatMap
    (fun f => f.files.map (fun nf => (joinPath f.root nf.1, nf.2)))

/-- The record a successfully stat-ed privileged file contributes, `none`
otherwise: the per-file filter of main.py:84-87. -/
def privRecord (pf : String × Option Nat) : Option (String × Nat) :=
  match pf.2 with
  | some m => if isPrivileged m then some (pf.1, m) else none
  | none => none

/-- One step of the `monitor_processes` loop (main.py:109-118), with fuel for
structural recursion: at the top of each iteration the elapsed time (in ms)
is compared with the duration; inside an iteration the process table is
sampled (taking `cost i` ms and yielding the executable paths `samples i`,
each added to the observed set) and the loop sleeps 100 ms.  The fuel is a
modelling device only: every iteration advances the clock by at least the
100 ms sleep, so the fuel passed by `monitor_processes` is never exhausted
(the lower bound on the finish time proved below depends on exactly this). -/
def monitorAux (durMs : Nat) (cost : Nat → Nat) (samples : Nat → List String) :
    Nat → Nat → Nat → List String → Nat × List String
  | 0, _, now, acc => (now, acc)
  | fuel + 1, i, now, acc =>
      if now < durMs then
        monitorAux durMs cost samples fuel (i + 1) (now + cost i + 100)
          ((samples i).foldl (fun a e => a.insert e) acc)
      else (now, acc)

/-- `monitor_processes(duration)` (main.py:96-123) with the duration in
milliseconds: returns the time at which the loop exits together with the
accumulated set (as a duplicate-free list) of observed executable paths.
`cost i` is the wall-clock cost of the i-th process-table sample and
`samples i` the executable paths it resolves (processes whose `exe` is
`None`, or which vanish or deny access mid-sample, are already absent from
`samples i`: the source skips them without adding anything). -/
def monitor_processes (durMs : Nat) (cost : Nat → Nat) (samples : Nat → List String) :
    Nat × List String :=
  monitorAux durMs cost samples durMs 0 0 []

/-- `check_privilege_usage(filepath, monitored_processes)` (main.py:126-135):
exact string membership of the path in the observed set. -/
def check_privilege_usage (filepath : String) (monitored : List String) : Bool :=
  monitored.contains filepath

/-- The per-file KEEP/REVOKE classification; the source has no explicit type
for it, it is the branch taken at main.py:184-187. -/
inductive Decision where
  | KEEP
  | REVOKE
deriving DecidableEq, Repr

/-- The Correlator: the decision main.py:184 takes for one inventory path. -/
def decisionFor (filepath : String) (monitored : List String) : Decision :=
  if check_privilege_usage filepath monitored then .KEEP else .REVOKE

/-- The decision list over a whole inventory, one decision per record in
inventory order (the loop of main.py:183-187 read declaratively). -/
def correlate (inventory : List (String × Nat)) (monitored : List String) :
    List ((String × Nat) × Decision) :=
  inventory.map (fun r => (r, decisionFor r.1 monitored))

/-- The mutable state `chmod` sees for one path: the mode bits and whether a
mode change is permitted (false models `EPERM`-style failures). -/
structure FileState where
  mode : Nat
  chmodAllowed : Bool
deriving DecidableEq, Repr

/-- The filesystem acted on by `chmod`: an association list path to state. -/
abbrev FileSystem := List (String × FileState)

/-- Write mode `m` at path `p` (all entries with that key, the path being the
identity of the file). -/
def setMode (fs : FileSystem) (p : String) (m : Nat) : FileSystem :=
  fs.map (fun e => if e.1 = p then (e.1, { e.2 with mode := m }) else e)

/-- `chmod a-s p`, the command run by main.py:146: clears the setuid and
setgid bits (mode AND NOT 0o6000), fails when the path does not exist or the
change is not permitted (nonzero exit, surfaced as
`subprocess.CalledProcessError` by `check=True`). -/
def chmod_a_s (fs : FileSystem) (p : String) : Except String FileSystem :=
  match List.lookup p fs with
  | none => .error ("No such file or directory: " ++ p)
  | some st =>
      if st.chmodAllowed then .ok (setMode fs p (Nat.ldiff st.mode 0o6000))
      else .error ("Operation not permitted: " ++ p)

/-- `remove_privileges(filepath, dry_run)` (main.py:137-153): under dry-run,
log the action without touching the filesystem; otherwise run `chmod a-s`
and log success, or catch the failure and log an error — the function never
propagates an exception.  Returns the new filesystem and the single log
entry it emits. -/
def remove_privileges (fs : FileSystem) (filepath : String) (dry_run : Bool) :
    FileSystem × LogEntry :=
  if dry_run then
    (fs, .info ("[Dry Run] Would remove setuid/setgid bits from: " ++ filepath))
  else
    match chmod_a_s fs filepath with
    | .ok fs1 => (fs1, .info ("Removed setuid/setgid bits from: " ++ filepath))
    | .error e => (fs, .error ("Failed to remove privileges from " ++ filepath ++ ": " ++ e))

/-- The revocation loop of main.py:183-187: for each inventory record, keep
(and log) when the path was observed, otherwise call `remove_privileges`.
Returns the final filesystem and one log entry per record. -/
def processFiles (fs : FileSystem) (inventory : List (String × Nat))
    (monitored : List String) (dry_run : Bool) : FileSystem × List LogEntry :=
  match inventory with
  | [] => (fs, [])
  | (p, _) :: rest =>
      if check_privilege_usage p monitored then
        let r := processFiles fs rest monitored dry_run
        (r.1, .info ("Keeping privileges for: " ++ p ++ " (used by monitored processes).") :: r.2)
      else
        let step := remove_privileges fs p dry_run
        let r := processFiles step.1 rest monitored dry_run
        (r.1, step.2 :: r.2)

/-- The command-line arguments of `setup_argparse` (main.py:19-46):
`--config`, `--dry-run`, `--monitor-time` (an `int`, default 60). -/
structure Args where
  config : String
  dry_run : Bool
  monitor_time : Int

/-- The environment `main` runs against: the outcome of `load_config`
(`none` models a `PrivilegeRemoverError`; the configuration mapping is
otherwise an opaque key-value dictionary, which `main` never reads), the
directory tree at the filesystem root `/`, the chmod-visible state, and the
process-table behaviour during monitoring. -/
structure Env where
  configResult : Option (List (String × String))
  rootReadable : Bool
  rootChildren : List Entry
  fs : FileSystem
  sampleCost : Nat → Nat
  samples : Nat → List String

/-- The observable outcome of one run of `main`: process exit code, the root
the scanner was invoked with (`none` when the scan never ran), whether the
monitor ran, the final chmod-visible filesystem, and the log. -/
structure RunResult where
  exitCode : Nat
  scanRoot : Option String
  monitorRan : Bool
  finalFS : FileSystem
  log : List LogEntry
deriving Repr

/-- `main()` (main.py:156-191).  `load_config` failure exits 1; a
non-positive `--monitor-time` exits 1 before the pipeline; otherwise the
pipeline runs: `find_setuid_setgid_files()` is called with NO argument
(main.py:177), so the scan root is the default `/` whatever the
configuration says; then the monitor, then the correlate-and-revoke loop.
All per-file errors are absorbed inside the loop, so the pipeline completes
and the process exits 0. -/
def pymain (args : Args) (env : Env) : RunResult :=
  match env.configResult with
  | none =>
      { exitCode := 1, scanRoot := none, monitorRan := false, finalFS := env.fs,
        log := [.error "configuration error"] }
  | some _ =>
      if args.monitor_time ≤ 0 then
        { exitCode := 1, scanRoot := none, monitorRan := false, finalFS := env.fs,
          log := [.error "Monitor time must be a positive integer."] }
      else
        let root := find_setuid_setgid_files_default_root
        let scan := find_setuid_setgid_files root env.rootReadable env.rootChildren
        let mon := monitor_processes (1000 * args.monitor_time.toNat) env.sampleCost env.samples
        let proc := processFiles env.fs scan.1 mon.2 args.dry_run
        { exitCode := 0, scanRoot := some root, monitorRan := true, finalFS := proc.1,
          log := scan.2 ++ proc.2 }

/-- The root path the configuration mapping carries, read the way the spec
describes the recognized `root path` option; the source never consults it. -/
def configuredRootPath (config : List (String × String)) : Option String :=
  List.lookup "root_path" config

/-- A three-file listing: two privileged files (setuid `a`, setgid `b`) and
one unprivileged (`c`); the end-to-end scenario of the specification. -/
def sampleChildren : List Entry :=
  [.file "a" (some 0o4755), .file "b" (some 0o2755), .file "c" (some 0o755)]

/-- A listing with an unreadable subdirectory holding a privileged file,
next to a privileged file outside it. -/
def unreadableChildren : List Entry :=
  [.dir "secret" 0o700 false [.file "inside" (some 0o4755)],
   .file "outside" (some 0o4755)]

/-- The chmod-visible state matching `sampleChildren` under `/`. -/
def sampleFS : FileSystem :=
  [("/a", { mode := 0o4755, chmodAllowed := true }),
   ("/b", { mode := 0o2755, chmodAllowed := true }),
   ("/c", { mode := 0o755, chmodAllowed := true })]

/-- A chmod-visible state whose only file already has both bits cleared. -/
def clearedFS : FileSystem := [("/bin/b", { mode := 0o755, chmodAllowed := true })]

/-- A configuration mapping that names a scan root other than `/`. -/
def cfgHome : List (String × String) := [("root_path", "/home")]

/-- An environment whose configuration asks for scan root `/home`. -/
def envHome : Env :=
  { configResult := some cfgHome, rootReadable := true, rootChildren := [],
    fs := [], sampleCost := fun _ => 0, samples := fun _ => [] }

/-- An environment over `sampleChildren` where only `/a` is ever observed
running; samples are instantaneous. -/
def envFull : Env :=
  { configResult := some [], rootReadable := true, rootChildren := sampleChildren,
    fs := sampleFS, sampleCost := fun _ => 0, samples := fun _ => ["/a"] }

/-- Arguments: one-second monitoring window, no dry run. -/
def argsBasic : Args := { config := "config.yaml", dry_run := false, monitor_time := 1 }

/-- Arguments: one-second monitoring window, dry run. -/
def argsDry : Args := { config := "config.yaml", dry_run := true, monitor_time := 1 }

/-- Arguments carrying a non-positive monitoring duration. -/
def argsBadTime : Args := { config := "config.yaml", dry_run := false, monitor_time := 0 }

/-- One unreadable directory deleted from a listing, at any depth: either the
unreadable directory (with its whole subtree) sits in the listing itself, or
the deletion happens somewhere inside a readable subdirectory. -/
inductive DropUnreadable : List Entry → List Entry → Prop where
  | here (a b : List Entry) (n : String) (m : Nat) (cs : List Entry) :
      DropUnreadable (a ++ Entry.dir n m false cs :: b) (a ++ b)
  | inside (a b : List Entry) (cs cs' : List Entry) (n : String) (m : Nat) :
      DropUnreadable cs cs' →
      DropUnreadable (a ++ Entry.dir n m true cs :: b) (a ++ Entry.dir n m true cs' :: b)

/-- `unreadableChildren` nested one level inside a readable directory. -/
def nestedUnreadable : List Entry := [Entry.dir "opt" 0o755 true unreadableChildren]

/-- `nestedUnreadable` with its deeply nested unreadable directory deleted. -/
def nestedPruned : List Entry :=
  [Entry.dir "opt" 0o755 true [Entry.file "outside" (some 0o4755)]]

theorem check_iff (p : String) (obs : List String) :
    check_privilege_usage p obs = true ↔ p ∈ obs := by
  simp [check_privilege_usage]

theorem ldiff_idem (m n : Nat) : Nat.ldiff (Nat.ldiff m n) n = Nat.ldiff m n := by
  apply Nat.eq_of_testBit_eq
  intro i
  simp only [Nat.testBit_ldiff]
  cases Nat.testBit m i <;> cases Nat.testBit n i <;> rfl

theorem ldiff_eq_self_of_land_eq_zero (m n : Nat) (h : m &&& n = 0) :
    Nat.ldiff m n = m := by
  apply Nat.eq_of_testBit_eq
  intro i
  have hb : Nat.testBit (m &&& n) i = false := by rw [h]; exact Nat.zero_testBit i
  rw [Nat.testBit_land] at hb
  simp only [Nat.testBit_ldiff]
  cases hm : Nat.testBit m i <;> cases hn : Nat.testBit n i <;> simp_all

theorem setMode_cons_eq (k : String) (st : FileState) (rest : FileSystem) (m : Nat) :
    setMode ((k, st) :: rest) k m = (k, { st with mode := m }) :: setMode rest k m := by
  simp [setMode]

theorem setMode_cons_ne (k : String) (st : FileState) (rest : FileSystem) (p : String)
    (m : Nat) (h : k ≠ p) :
    setMode ((k, st) :: rest) p m = (k, st) :: setMode rest p m := by
  simp [setMode, h]

theorem lookup_cons_self (k : String) (v : FileState) (l : FileSystem) :
    List.lookup k ((k, v) :: l) = some v := by
  simp [List.lookup]

theorem lookup_cons_ne (k q : String) (v : FileState) (l : FileSystem) (h : q ≠ k) :
    List.lookup q ((k, v) :: l) = List.lookup q l := by
  have hb : (q == k) = false := by
    simp [h]
  simp [List.lookup, hb]

theorem lookup_setMode_self (fs : FileSystem) (p : String) (m : Nat) :
    List.lookup p (setMode fs p m)
      = (List.lookup p fs).map (fun st => { st with mode := m }) := by
  induction fs with
  | nil => rfl
  | cons e rest ih =>
      obtain ⟨k, st⟩ := e
      by_cases h : k = p
      · subst h
        rw [setMode_cons_eq, lookup_cons_self, lookup_cons_self]
        rfl
      · rw [setMode_cons_ne _ _ _ _ _ h, lookup_cons_ne _ _ _ _ (Ne.symm h),
          lookup_cons_ne _ _ _ _ (Ne.symm h), ih]

theorem lookup_setMode_ne (fs : FileSystem) (p q : String) (m : Nat) (h : q ≠ p) :
    List.lookup q (setMode fs p m) = List.lookup q fs := by
  induction fs with
  | nil => rfl
  | cons e rest ih =>
      obtain ⟨k, st⟩ := e
      by_cases hk : k = p
      · subst hk
        rw [setMode_cons_eq, lookup_cons_ne _ _ _ _ h, lookup_cons_ne _ _ _ _ h, ih]
      · rw [setMode_cons_ne _ _ _ _ _ hk]
        by_cases hq : q = k
        · subst hq
          rw [lookup_cons_self, lookup_cons_self]
        · rw [lookup_cons_ne _ _ _ _ hq, lookup_cons_ne _ _ _ _ hq, ih]

theorem scanFiles_fst (root : String) (files : List (String × Option Nat)) :
    (scanFiles root files).1
      = files.filterMap (fun nf => privRecord (joinPath root nf.1, nf.2)) := by
  induction files with
  | nil => rfl
  | cons nf rest ih =>
      obtain ⟨n, st⟩ := nf
      cases st with
      | none => simpa [scanFiles, privRecord] using ih
      | some m =>
          by_cases h : isPrivileged m
          · simp [scanFiles, privRecord, h, ih]
          · simp [scanFiles, privRecord, h, ih]

theorem scanFrames_fst (frames : List Frame) :
    (scanFrames frames).1
      = (frames.flatMap
          (fun f => f.files.map (fun nf => (joinPath f.root nf.1, nf.2)))).filterMap
          privRecord := by
  induction frames with
  | nil => rfl
  | cons f fs ih =>
      simp only [scanFrames, List.flatMap_cons, List.filterMap_append, ih,
        scanFiles_fst, List.filterMap_map]
      rfl

theorem find_records_eq (rootDir : String) (readable : Bool) (children : List Entry) :
    (find_setuid_setgid_files rootDir readable children).1
      = (reachableFiles rootDir readable children).filterMap privRecord := by
  rw [find_setuid_setgid_files, reachableFiles, scanFrames_fst]

theorem fileEntries_append (a b : List Entry) :
    fileEntries (a ++ b) = fileEntries a ++ fileEntries b := by
  induction a with
  | nil => rfl
  | cons e a ih => cases e <;> simp [fileEntries, ih]

theorem walkList_append (path : String) (a b : List Entry) :
    walkList path (a ++ b) = walkList path a ++ walkList path b := by
  induction a with
  | nil => simp [walkList]
  | cons e a ih =>
      cases e with
      | file n st => simpa [walkList] using ih
      | dir n m r cs => simp [walkList, ih, List.append_assoc]

theorem walkList_unreadable_cons (path : String) (n : String) (m : Nat) (cs b : List Entry) :
    walkList path (Entry.dir n m false cs :: b) = walkList path b := by
  simp [walkList]

theorem fileEntries_dir_cons (n : String) (m : Nat) (r : Bool) (cs b : List Entry) :
    fileEntries (Entry.dir n m r cs :: b) = fileEntries b := by
  simp [fileEntries]

theorem dropUnreadable_invariant (es es' : List Entry) (h : DropUnreadable es es') :
    fileEntries es = fileEntries es' ∧ ∀ path, walkList path es = walkList path es' := by
  induction h with
  | here a b n m cs =>
      constructor
      · rw [fileEntries_append, fileEntries_append, fileEntries_dir_cons]
      · intro path
        rw [walkList_append, walkList_append, walkList_unreadable_cons]
  | inside a b cs cs' n m hcs ih =>
      obtain ⟨ihf, ihw⟩ := ih
      constructor
      · rw [fileEntries_append, fileEntries_append, fileEntries_dir_cons, fileEntries_dir_cons]
      · intro path
        rw [walkList_append, walkList_append]
        congr 1
        simp [walkList, ihf, ihw]

theorem monitorAux_fst_ge (durMs : Nat) (cost : Nat → Nat) (samples : Nat → List String) :
    ∀ (fuel i now : Nat) (acc : List String), durMs ≤ 100 * fuel + now →
      durMs ≤ (monitorAux durMs cost samples fuel i now acc).1 := by
  intro fuel
  induction fuel with
  | zero =>
      intro i now acc h
      simpa [monitorAux] using h
  | succ fuel ih =>
      intro i now acc h
      by_cases hlt : now < durMs
      · simp only [monitorAux, if_pos hlt]
        apply ih
        have := cost i
        omega
      · simp only [monitorAux, if_neg hlt]
        omega

theorem monitorAux_fst_lt (durMs : Nat) (cost : Nat → Nat) (samples : Nat → List String)
    (C : Nat) (hC : ∀ j, cost j ≤ C) :
    ∀ (fuel i now : Nat) (acc : List String), now < durMs + C + 100 →
      (monitorAux durMs cost samples fuel i now acc).1 < durMs + C + 100 := by
  intro fuel
  induction fuel with
  | zero =>
      intro i now acc h
      simpa [monitorAux] using h
  | succ fuel ih =>
      intro i now acc h
      by_cases hlt : now < durMs
      · simp only [monitorAux, if_pos hlt]
        apply ih
        have := hC i
        omega
      · simpa [monitorAux, if_neg hlt] using h

theorem monitor_finish_ge (durMs : Nat) (cost : Nat → Nat) (samples : Nat → List String) :
    durMs ≤ (monitor_processes durMs cost samples).1 := by
  apply monitorAux_fst_ge
  omega

theorem monitor_finish_lt (durMs : Nat) (cost : Nat → Nat) (samples : Nat → List String)
    (C : Nat) (hC : ∀ j, cost j ≤ C) :
    (monitor_processes durMs cost samples).1 < durMs + C + 100 := by
  apply monitorAux_fst_lt durMs cost samples C hC
  omega

theorem remove_privileges_of_lookup_none (fs : FileSystem) (p : String)
    (h : List.lookup p fs = none) :
    remove_privileges fs p false
      = (fs, .error ("Failed to remove privileges from " ++ p ++ ": "
          ++ ("No such file or directory: " ++ p))) := by
  simp [remove_privileges, chmod_a_s, h]

theorem remove_privileges_of_not_allowed (fs : FileSystem) (p : String) (st : FileState)
    (hl : List.lookup p fs = some st) (ha : st.chmodAllowed = false) :
    remove_privileges fs p false
      = (fs, .error ("Failed to remove privileges from " ++ p ++ ": "
          ++ ("Operation not permitted: " ++ p))) := by
  simp [remove_privileges, chmod_a_s, hl, ha]

theorem remove_privileges_of_allowed (fs : FileSystem) (p : String) (st : FileState)
    (hl : List.lookup p fs = some st) (ha : st.chmodAllowed = true) :
    remove_privileges fs p false
      = (setMode fs p (Nat.ldiff st.mode 0o6000),
         .info ("Removed setuid/setgid bits from: " ++ p)) := by
  simp [remove_privileges, chmod_a_s, hl, ha]

theorem remove_privileges_lookup_ne (fs : FileSystem) (p : String) (d : Bool) (q : String)
    (h : q ≠ p) :
    List.lookup q (remove_privileges fs p d).1 = List.lookup q fs := by
  cases d with
  | true => simp [remove_privileges]
  | false =>
      cases hl : List.lookup p fs with
      | none => simp [remove_privileges, chmod_a_s, hl]
      | some st =>
          by_cases ha : st.chmodAllowed
          · simp [remove_privileges, chmod_a_s, hl, ha, lookup_setMode_ne _ _ _ _ h]
          · simp [remove_privileges, chmod_a_s, hl, ha]

theorem processFiles_length (fs : FileSystem) (inv : List (String × Nat))
    (monitored : List String) (d : Bool) :
    (processFiles fs inv monitored d).2.length = inv.length := by
  induction inv generalizing fs with
  | nil => rfl
  | cons r rest ih =>
      obtain ⟨p, m⟩ := r
      by_cases h : check_privilege_usage p monitored
      · simp [processFiles, h, ih]
      · simp [processFiles, h, ih]

theorem processFiles_dry (fs : FileSystem) (inv : List (String × Nat))
    (monitored : List String) :
    processFiles fs inv monitored true
      = (fs, inv.map fun r =>
          if check_privilege_usage r.1 monitored then
            LogEntry.info ("Keeping privileges for: " ++ r.1 ++ " (used by monitored processes).")
          else
            LogEntry.info ("[Dry Run] Would remove setuid/setgid bits from: " ++ r.1)) := by
  induction inv generalizing fs with
  | nil => rfl
  | cons r rest ih =>
      obtain ⟨p, m⟩ := r
      by_cases h : check_privilege_usage p monitored
      · simp [processFiles, remove_privileges, h, ih]
      · simp [processFiles, remove_privileges, h, ih]

theorem processFiles_lookup_of_notin (fs : FileSystem) (inv : List (String × Nat))
    (monitored : List String) (d : Bool) (q : String) (h : ∀ r ∈ inv, r.1 ≠ q) :
    List.lookup q (processFiles fs inv monitored d).1 = List.lookup q fs := by
  induction inv generalizing fs with
  | nil => rfl
  | cons r rest ih =>
      obtain ⟨p, m⟩ := r
      have hpq : q ≠ p := fun hq => h (p, m) (List.mem_cons_self _ _) hq.symm
      have hrest : ∀ r ∈ rest, r.1 ≠ q := fun r hr => h r (List.mem_cons_of_mem _ hr)
      by_cases hc : check_privilege_usage p monitored
      · simp only [processFiles, if_pos hc]
        exact ih _ hrest
      · simp only [processFiles, if_neg hc]
        rw [ih _ hrest, remove_privileges_lookup_ne _ _ _ _ hpq]

/-- Claim C2: for every inventory record and observed set, the decision is
KEEP iff the record's path is a member of the observed set by exact string
comparison, else REVOKE; repeated invocation on the same inputs yields
identical decisions. -/
theorem correlator_decision_rule :
    (∀ (p : String) (obs : List String), check_privilege_usage p obs = true ↔ p ∈ obs) ∧
    (∀ (inv : List (String × Nat)) (obs : List String)
        (pr : (String × Nat) × Decision), pr ∈ correlate inv obs →
        (pr.2 = Decision.KEEP ↔ pr.1.1 ∈ obs) ∧ (pr.2 = Decision.REVOKE ↔ pr.1.1 ∉ obs)) ∧
    (∀ (inv : List (String × Nat)) (obs : List String), correlate inv obs = correlate inv obs) := by
  refine ⟨check_iff, ?_, fun _ _ => rfl⟩
  intro inv obs pr hpr
  simp only [correlate, List.mem_map] at hpr
  obtain ⟨r, hr, rfl⟩ := hpr
  by_cases h : check_privilege_usage r.1 obs
  · have hm : r.1 ∈ obs := (check_iff _ _).mp h
    simp [decisionFor, h, hm]
  · have hm : r.1 ∉ obs := fun hmem => h ((check_iff _ _).mpr hmem)
    simp [decisionFor, h, hm]

/-- Witness for C2 at a concrete inventory and observed set. -/
theorem correlator_decision_rule_witness :
    ((("/bin/a", (0o4755 : Nat)), Decision.KEEP)
        ∈ correlate [("/bin/a", 0o4755)] ["/bin/a"]) ∧
    ((Decision.KEEP = Decision.KEEP ↔ "/bin/a" ∈ ["/bin/a"]) ∧
     (Decision.KEEP = Decision.REVOKE ↔ "/bin/a" ∉ ["/bin/a"])) := by
  have hmem : ((("/bin/a", (0o4755 : Nat)), Decision.KEEP)
      ∈ correlate [("/bin/a", 0o4755)] ["/bin/a"]) := by decide
  exact ⟨hmem, correlator_decision_rule.2.1 _ _ _ hmem⟩

/-- Claim C3: under dry-run the revocation pass mutates no file state at all,
whatever the decisions are, while still producing the would-revoke report for
every REVOKE decision (and the keep report for every KEEP decision); hence
the whole run leaves the filesystem untouched. -/
theorem dry_run_no_mutation :
    (∀ (fs : FileSystem) (inv : List (String × Nat)) (obs : List String),
        processFiles fs inv obs true
          = (fs, inv.map fun r =>
              if check_privilege_usage r.1 obs then
                LogEntry.info ("Keeping privileges for: " ++ r.1 ++ " (used by monitored processes).")
              else
                LogEntry.info ("[Dry Run] Would remove setuid/setgid bits from: " ++ r.1))) ∧
    (∀ (args : Args) (env : Env), args.dry_run = true → (pymain args env).finalFS = env.fs) := by
  refine ⟨processFiles_dry, ?_⟩
  intro args env hd
  cases hc : env.configResult with
  | none => simp [pymain, hc]
  | some cfg =>
      by_cases ht : args.monitor_time ≤ 0
      · simp [pymain, hc, ht]
      · simp [pymain, hc, ht, hd, processFiles_dry]

/-- Witness for C3: a dry run over the three-file environment leaves the
filesystem exactly as it was. -/
theorem dry_run_no_mutation_witness :
    (pymain argsDry envFull).finalFS = envFull.fs :=
  dry_run_no_mutation.2 argsDry envFull rfl

/-- Claim C4: the scanner inventory is exactly the reachable files whose
stat-ed mode has bit 0o4000 or 0o2000 set, each record carrying that path
and mode; on the concrete three-file tree with two privileged files it
returns exactly those two records. -/
theorem scanner_completeness :
    (∀ (rootDir : String) (readable : Bool) (children : List Entry),
        (find_setuid_setgid_files rootDir readable children).1
          = (reachableFiles rootDir readable children).filterMap privRecord) ∧
    (find_setuid_setgid_files "/" true sampleChildren).1
      = [("/a", 0o4755), ("/b", 0o2755)] := by
  refine ⟨find_records_eq, ?_⟩
  rw [find_setuid_setgid_files, osWalk]
  norm_num
  rw [show walkList "/" sampleChildren = [] from by simp [walkList, sampleChildren]]
  decide

/-- Claim C1 counterexample: the configuration names scan root `/home`, yet
the pipeline invokes the scanner at `/` — `main` passes no argument to
`find_setuid_setgid_files`, so the configured root path is ignored. -/
theorem scan_root_counterexample :
    configuredRootPath cfgHome = some "/home" ∧
    envHome.configResult = some cfgHome ∧
    (pymain argsBasic envHome).scanRoot = some "/" ∧
    (some "/" : Option String) ≠ some "/home" := by
  refine ⟨by decide, rfl, by decide, by decide⟩

/-- Claim C1 amended: whenever the pipeline runs at all, the scan root is the
default `/` of `find_setuid_setgid_files`, independent of the configuration
contents. -/
theorem scan_root_is_default :
    ∀ (args : Args) (env : Env) (cfg : List (String × String)),
      env.configResult = some cfg → 0 < args.monitor_time →
      (pymain args env).scanRoot = some find_setuid_setgid_files_default_root := by
  intro args env cfg hc ht
  simp [pymain, hc, not_le.mpr ht]

/-- Witness for the amended C1 at a concrete run. -/
theorem scan_root_is_default_witness :
    (pymain argsBasic envFull).scanRoot = some find_setuid_setgid_files_default_root :=
  scan_root_is_default argsBasic envFull [] rfl (by decide)

/-- Claim C5: a failed mode change (missing file, not permitted) is caught
and turned into an error log entry carrying the path and reason, with the
filesystem untouched; the revocation loop emits one report per inventory
record, so every remaining record is processed to completion; and the run
exits 0 whatever per-file failures occurred. -/
theorem revocation_failure_isolation :
    (∀ (fs : FileSystem) (p : String),
        List.lookup p fs = none →
        remove_privileges fs p false
          = (fs, .error ("Failed to remove privileges from " ++ p ++ ": "
              ++ ("No such file or directory: " ++ p)))) ∧
    (∀ (fs : FileSystem) (p : String) (st : FileState),
        List.lookup p fs = some st → st.chmodAllowed = false →
        remove_privileges fs p false
          = (fs, .error ("Failed to remove privileges from " ++ p ++ ": "
              ++ ("Operation not permitted: " ++ p)))) ∧
    (∀ (fs : FileSystem) (inv : List (String × Nat)) (monitored : List String) (d : Bool),
        (processFiles fs inv monitored d).2.length = inv.length) ∧
    (∀ (args : Args) (env : Env) (cfg : List (String × String)),
        env.configResult = some cfg → 0 < args.monitor_time →
        (pymain args env).exitCode = 0) := by
  refine ⟨remove_privileges_of_lookup_none, remove_privileges_of_not_allowed,
    processFiles_length, ?_⟩
  intro args env cfg hc ht
  simp [pymain, hc, not_le.mpr ht]

/-- Witness for C5: revoking a vanished path fails with a logged reason and
leaves the state alone, and a concrete full run exits 0. -/
theorem revocation_failure_isolation_witness :
    List.lookup "/gone" sampleFS = none ∧
    remove_privileges sampleFS "/gone" false
      = (sampleFS, .error ("Failed to remove privileges from " ++ "/gone" ++ ": "
          ++ ("No such file or directory: " ++ "/gone"))) ∧
    (pymain argsBasic envFull).exitCode = 0 :=
  ⟨by decide, revocation_failure_isolation.1 sampleFS "/gone" (by decide),
    revocation_failure_isolation.2.2.2 argsBasic envFull [] rfl (by decide)⟩

/-- Claim C6 counterexample: on a tree whose listing contains an unreadable
directory, the scan emits NO log entry at all — in particular no warning for
the skipped directory (`os.walk` is called with `onerror=None`, which
swallows the error silently) — although the privileged file outside the
unreadable subtree is still discovered. -/
theorem scanner_no_warning_counterexample :
    Entry.dir "secret" 0o700 false [Entry.file "inside" (some 0o4755)] ∈ unreadableChildren ∧
    (find_setuid_setgid_files "/" true unreadableChildren).2 = [] ∧
    (find_setuid_setgid_files "/" true unreadableChildren).1 = [("/outside", 0o4755)] := by
  have h : find_setuid_setgid_files "/" true unreadableChildren
      = ([("/outside", 0o4755)], []) := by
    rw [find_setuid_setgid_files, osWalk]
    norm_num
    rw [show walkList "/" unreadableChildren = [] from by simp [walkList, unreadableChildren]]
    decide
  refine ⟨?_, by rw [h], by rw [h]⟩
  show _ ∈ unreadableChildren
  exact List.mem_cons_self _ _

/-- Claim C6 amended: every directory that cannot be entered — at any depth
of the tree — is skipped silently: deleting it (with its whole subtree)
changes neither the inventory nor the log, so no warning is emitted for it,
traversal continues into the rest of the tree, and every privileged file
outside the unreadable subtree is still discovered. -/
theorem scanner_skips_unreadable_silently :
    ∀ (rootDir : String) (rb : Bool) (children children' : List Entry),
      DropUnreadable children children' →
      find_setuid_setgid_files rootDir rb children
        = find_setuid_setgid_files rootDir rb children' := by
  intro rootDir rb children children' h
  obtain ⟨hf, hw⟩ := dropUnreadable_invariant children children' h
  cases rb with
  | false => simp [find_setuid_setgid_files, osWalk]
  | true => simp [find_setuid_setgid_files, osWalk, hf, hw]

/-- Witness for the amended C6: an unreadable directory nested one level
inside a readable directory contributes nothing to the scan. -/
theorem scanner_skips_unreadable_silently_witness :
    find_setuid_setgid_files "/" true nestedUnreadable
      = find_setuid_setgid_files "/" true nestedPruned :=
  scanner_skips_unreadable_silently "/" true nestedUnreadable nestedPruned
    (DropUnreadable.inside [] [] unreadableChildren [Entry.file "outside" (some 0o4755)]
      "opt" 0o755
      (DropUnreadable.here [] [Entry.file "outside" (some 0o4755)] "secret" 0o700
        [Entry.file "inside" (some 0o4755)]))

/-- Claim C7 counterexample: with a one-second window and a process-table
sample that takes two seconds, the loop (which re-checks the clock only at
the top of each iteration) finishes at 2100 ms, beyond duration plus one
100 ms poll interval — the claimed completion bound fails. -/
theorem monitor_overrun_counterexample :
    (monitor_processes 1000 (fun _ => 2000) (fun _ => [])).1 = 2100 ∧
    ¬ ((monitor_processes 1000 (fun _ => 2000) (fun _ => [])).1 ≤ 1000 + 100) := by
  exact ⟨by decide, by decide⟩

/-- Claim C7 amended: the sampling loop always terminates, never stops
before elapsed time reaches the duration, and finishes within the duration
plus one poll interval plus one process-table sample: strictly below
`durMs + C + 100` whenever every sample costs at most `C` ms (so within one
poll interval of the deadline exactly when sampling time is negligible). -/
theorem monitor_terminates_within_bound :
    ∀ (durMs : Nat) (cost : Nat → Nat) (samples : Nat → List String) (C : Nat),
      (∀ j, cost j ≤ C) →
      durMs ≤ (monitor_processes durMs cost samples).1 ∧
      (monitor_processes durMs cost samples).1 < durMs + C + 100 :=
  fun durMs cost samples C hC =>
    ⟨monitor_finish_ge durMs cost samples, monitor_finish_lt durMs cost samples C hC⟩

/-- Witness for the amended C7 with instantaneous samples. -/
theorem monitor_terminates_within_bound_witness :
    1000 ≤ (monitor_processes 1000 (fun _ => 0) (fun _ => [])).1 ∧
    (monitor_processes 1000 (fun _ => 0) (fun _ => [])).1 < 1000 + 0 + 100 :=
  monitor_terminates_within_bound 1000 (fun _ => 0) (fun _ => []) 0 (fun _ => Nat.le_refl 0)

/-- Claim C8: revocation is idempotent — on a file that exists and accepts
mode changes, revoking succeeds, revoking again succeeds with the identical
resulting mode, and when the bits are already cleared the first revocation
is a no-op (the stored state is unchanged). -/
theorem revoker_idempotent :
    ∀ (fs : FileSystem) (p : String) (st : FileState),
      List.lookup p fs = some st → st.chmodAllowed = true →
      (remove_privileges fs p false).2
          = LogEntry.info ("Removed setuid/setgid bits from: " ++ p) ∧
      List.lookup p (remove_privileges fs p false).1
          = some { mode := Nat.ldiff st.mode 0o6000, chmodAllowed := true } ∧
      (remove_privileges (remove_privileges fs p false).1 p false).2
          = LogEntry.info ("Removed setuid/setgid bits from: " ++ p) ∧
      List.lookup p (remove_privileges (remove_privileges fs p false).1 p false).1
          = List.lookup p (remove_privileges fs p false).1 ∧
      (st.mode &&& 0o6000 = 0 →
        List.lookup p (remove_privileges fs p false).1 = some st) := by
  intro fs p st hl ha
  obtain ⟨m0, al⟩ := st
  have ha' : al = true := ha
  subst ha'
  have h1 := remove_privileges_of_allowed fs p ⟨m0, true⟩ hl rfl
  have hfs1 : List.lookup p (remove_privileges fs p false).1
      = some { mode := Nat.ldiff m0 0o6000, chmodAllowed := true } := by
    rw [h1]
    show List.lookup p (setMode fs p (Nat.ldiff m0 0o6000)) = _
    rw [lookup_setMode_self, hl]
    rfl
  have h2 := remove_privileges_of_allowed (remove_privileges fs p false).1 p
      ⟨Nat.ldiff m0 0o6000, true⟩ hfs1 rfl
  refine ⟨by rw [h1], hfs1, by rw [h2], ?_, ?_⟩
  · rw [h2]
    show List.lookup p (setMode (remove_privileges fs p false).1 p
        (Nat.ldiff (Nat.ldiff m0 0o6000) 0o6000)) = _
    rw [lookup_setMode_self, hfs1, ldiff_idem]
    rfl
  · intro hz
    rw [hfs1, ldiff_eq_self_of_land_eq_zero m0 _ hz]

/-- Witness for C8: a file whose bits are already cleared is revoked as a
no-op success. -/
theorem revoker_idempotent_witness :
    List.lookup "/bin/b" clearedFS = some { mode := 0o755, chmodAllowed := true } ∧
    List.lookup "/bin/b" (remove_privileges clearedFS "/bin/b" false).1
      = some { mode := 0o755, chmodAllowed := true } := by
  refine ⟨by decide, ?_⟩
  exact (revoker_idempotent clearedFS "/bin/b" ⟨0o755, true⟩ (by decide) rfl).2.2.2.2
    (by decide)

/-- Claim C9: a non-positive monitoring duration makes the process exit with
status 1 before the pipeline: the scanner is never invoked, the monitor
never runs, and the filesystem is untouched. -/
theorem nonpositive_duration_rejected :
    ∀ (args : Args) (env : Env), args.monitor_time ≤ 0 →
      (pymain args env).exitCode = 1 ∧ (pymain args env).scanRoot = none ∧
      (pymain args env).monitorRan = false ∧ (pymain args env).finalFS = env.fs := by
  intro args env h
  cases hc : env.configResult with
  | none => simp [pymain, hc]
  | some cfg => simp [pymain, hc, h]

/-- Witness for C9 at duration 0. -/
theorem nonpositive_duration_rejected_witness :
    (pymain argsBadTime envFull).exitCode = 1 ∧
    (pymain argsBadTime envFull).scanRoot = none ∧
    (pymain argsBadTime envFull).monitorRan = false ∧
    (pymain argsBadTime envFull).finalFS = envFull.fs :=
  nonpositive_duration_rejected argsBadTime envFull (by decide)

/-- Claim C10: the inventory contains only reachable FILES (every record
comes from a file node and carries its stat-ed privileged mode); the mode
bits of a directory — setgid or otherwise — never influence the scan; and
the revocation loop never touches a path outside the inventory, so the
pipeline never revokes bits on a directory. -/
theorem scanner_only_files :
    (∀ (rootDir : String) (readable : Bool) (children : List Entry)
        (rec : String × Nat),
        rec ∈ (find_setuid_setgid_files rootDir readable children).1 →
        (rec.1, some rec.2) ∈ reachableFiles rootDir readable children
          ∧ isPrivileged rec.2 = true) ∧
    (∀ (rootDir : String) (rb : Bool) (a b : List Entry) (n : String)
        (m m' : Nat) (r : Bool) (cs : List Entry),
        find_setuid_setgid_files rootDir rb (a ++ Entry.dir n m r cs :: b)
          = find_setuid_setgid_files rootDir rb (a ++ Entry.dir n m' r cs :: b)) ∧
    (∀ (fs : FileSystem) (inv : List (String × Nat)) (monitored : List String)
        (d : Bool) (q : String), (∀ rec ∈ inv, rec.1 ≠ q) →
        List.lookup q (processFiles fs inv monitored d).1 = List.lookup q fs) := by
  refine ⟨?_, ?_, processFiles_lookup_of_notin⟩
  · intro rootDir rb cs rec hrec
    rw [find_records_eq, List.mem_filterMap] at hrec
    obtain ⟨pf, hpf, hrec⟩ := hrec
    obtain ⟨p, st⟩ := pf
    cases st with
    | none => simp [privRecord] at hrec
    | some m =>
        by_cases h : isPrivileged m
        · simp only [privRecord, h, if_pos] at hrec
          rw [Option.some_inj] at hrec
          subst hrec
          exact ⟨hpf, h⟩
        · simp [privRecord, h] at hrec
  · intro rootDir rb a b n m m' r cs
    have h1 : fileEntries (a ++ Entry.dir n m r cs :: b)
        = fileEntries (a ++ Entry.dir n m' r cs :: b) := by
      rw [fileEntries_append, fileEntries_append, fileEntries_dir_cons, fileEntries_dir_cons]
    have h2 : walkList rootDir (a ++ Entry.dir n m r cs :: b)
        = walkList rootDir (a ++ Entry.dir n m' r cs :: b) := by
      rw [walkList_append, walkList_append]
      congr 1
      simp [walkList]
    cases rb with
    | false => simp [find_setuid_setgid_files, osWalk]
    | true => simp [find_setuid_setgid_files, osWalk, h1, h2]

/-- Witness for C10: the record for `/a` comes from a reachable file node,
and a path outside the inventory is untouched by the revocation loop. -/
theorem scanner_only_files_witness :
    ((("/a" : String), (some 0o4755 : Option Nat)) ∈ reachableFiles "/" true sampleChildren
        ∧ isPrivileged 0o4755 = true) ∧
    List.lookup "/c" (processFiles sampleFS [("/a", 0o4755)] [] false).1
      = List.lookup "/c" sampleFS := by
  constructor
  · have hmem : (("/a", (0o4755 : Nat))) ∈ (find_setuid_setgid_files "/" true sampleChildren).1 := by
      rw [find_setuid_setgid_files, osWalk]
      norm_num
      rw [show walkList "/" sampleChildren = [] from by simp [walkList, sampleChildren]]
      decide
    exact scanner_only_files.1 "/" true sampleChildren ("/a", 0o4755) hmem
  · exact scanner_only_files.2.2 sampleFS [("/a", 0o4755)] [] false "/c" (by decide)
